import Mathlib

/-!
Verification of the operation-primitive library of `cnn/operations.py`
(sharpDARTS).  Tensors are modelled as 4-D (batch, channel, height, width)
arrays of rationals; each `nn` building block is embedded as a function on
tensors whose shape arithmetic follows the PyTorch formulas, and the two
operation catalogs `OPS` and `DARTS_OPS` are embedded as string-keyed maps
to constructors.
-/

set_option autoImplicit false

namespace SharpDarts

/-- A 4-D tensor in (N, C, H, W) layout: shape fields plus a total valuation
function (indices outside the shape are irrelevant to all statements). -/
structure Tensor where
  N : Nat
  C : Nat
  H : Nat
  W : Nat
  val : Nat → Nat → Nat → Nat → ℚ

/-- The (N, C, H, W) shape of a tensor. -/
def Tensor.shape (x : Tensor) : Nat × Nat × Nat × Nat := (x.N, x.C, x.H, x.W)

/-- Weight array of a single module (e.g. a convolution's 4-D weight). -/
abbrev W4 := Nat → Nat → Nat → Nat → ℚ

/-- Parameter supply for a composite block: one weight array per internal
module, indexed by position in the block's sequential structure. -/
abbrev Par := Nat → W4

/-- Per-channel scale extracted from a normalization module's parameters
(eval-mode batch normalization acts as a per-channel affine map). -/
def pScale (θ : Par) (m : Nat) : Nat → ℚ := fun c => θ m c 0 0 0

/-- Per-channel shift extracted from a normalization module's parameters. -/
def pShift (θ : Par) (m : Nat) : Nat → ℚ := fun c => θ m c 1 0 0

/-- Zero-padded tensor access at possibly negative integer spatial indices. -/
def boundedVal (x : Tensor) (n c : Nat) (i j : Int) : ℚ :=
  if 0 ≤ i ∧ i < (x.H : Int) ∧ 0 ≤ j ∧ j < (x.W : Int) then
    x.val n c i.toNat j.toNat
  else 0

/-- PyTorch output-size formula for convolution and pooling along one axis:
`floor((size + 2 p - d (k - 1) - 1) / s) + 1`. -/
def convOut (size k s p d : Nat) : Nat :=
  (size + 2 * p - (d * (k - 1) + 1)) / s + 1

/-- `nn.Conv2d` forward (cross-correlation, no bias) with possibly
rectangular kernel/stride/padding and grouped channels, as in the source's
depthwise convolutions. -/
def conv2dRect (Cin Cout kh kw sh sw ph pw dh dw g : Nat) (w : W4)
    (x : Tensor) : Tensor :=
  { N := x.N
    C := Cout
    H := convOut x.H kh sh ph dh
    W := convOut x.W kw sw pw dw
    val := fun n co i j =>
      let cpg := Cin / g
      let grp := co / (Cout / g)
      ∑ ci ∈ Finset.range cpg, ∑ ki ∈ Finset.range kh, ∑ kj ∈ Finset.range kw,
        w co ci ki kj *
          boundedVal x n (grp * cpg + ci)
            ((i * sh + ki * dh : Nat) - (ph : Int))
            ((j * sw + kj * dw : Nat) - (pw : Int)) }

/-- Square-kernel `nn.Conv2d` (kernel k, stride s, padding p, dilation d,
groups g). -/
def conv2dSq (Cin Cout k s p d g : Nat) (w : W4) (x : Tensor) : Tensor :=
  conv2dRect Cin Cout k k s s p p d d g w x

/-- `nn.ReLU` forward. -/
def reluT (x : Tensor) : Tensor :=
  { x with val := fun n c i j => max 0 (x.val n c i j) }

/-- `nn.BatchNorm2d` forward in eval mode: a per-channel affine map
(folding running statistics, epsilon and the optional learnable affine
parameters into one scale and one shift per channel). -/
def batchNormT (scale shift : Nat → ℚ) (x : Tensor) : Tensor :=
  { x with val := fun n c i j => scale c * x.val n c i j + shift c }

/-- In-bounds window values of a k×k pooling window with stride s and
padding p at output position (i, j). -/
def poolVals (x : Tensor) (k s p n c i j : Nat) : List ℚ :=
  (List.range k).flatMap fun ki =>
    (List.range k).filterMap fun kj =>
      let ii : Int := (i * s + ki : Nat) - (p : Int)
      let jj : Int := (j * s + kj : Nat) - (p : Int)
      if 0 ≤ ii ∧ ii < (x.H : Int) ∧ 0 ≤ jj ∧ jj < (x.W : Int) then
        some (x.val n c ii.toNat jj.toNat)
      else none

/-- `nn.AvgPool2d(3, stride, padding=1, count_include_pad=False)` forward:
average of the in-bounds window values (padding excluded from the count). -/
def avgPool3x3 (s : Nat) (x : Tensor) : Tensor :=
  { N := x.N, C := x.C
    H := convOut x.H 3 s 1 1
    W := convOut x.W 3 s 1 1
    val := fun n c i j =>
      (poolVals x 3 s 1 n c i j).sum / ((poolVals x 3 s 1 n c i j).length : ℚ) }

/-- `nn.MaxPool2d(3, stride, padding=1)` forward: maximum of the in-bounds
window values (implicit padding by negative infinity never wins). -/
def maxPool3x3 (s : Nat) (x : Tensor) : Tensor :=
  { N := x.N, C := x.C
    H := convOut x.H 3 s 1 1
    W := convOut x.W 3 s 1 1
    val := fun n c i j =>
      ((poolVals x 3 s 1 n c i j).foldr max ((poolVals x 3 s 1 n c i j).headD 0)) }

/-- `nn.ConstantPad2d((0, 1, 0, 1), 0)`: pad one zero row at the bottom and
one zero column at the right. -/
def padBR (x : Tensor) : Tensor :=
  { N := x.N, C := x.C, H := x.H + 1, W := x.W + 1
    val := fun n c i j => if i < x.H ∧ j < x.W then x.val n c i j else 0 }

/-- Spatial slice `y[:, :, 1:, 1:]`. -/
def crop11 (x : Tensor) : Tensor :=
  { N := x.N, C := x.C, H := x.H - 1, W := x.W - 1
    val := fun n c i j => x.val n c (i + 1) (j + 1) }

/-- `torch.cat([a, b], dim=1)`: concatenation along the channel axis. -/
def catChannels (a b : Tensor) : Tensor :=
  { N := a.N, C := a.C + b.C, H := a.H, W := a.W
    val := fun n c i j => if c < a.C then a.val n c i j else b.val n (c - a.C) i j }

/-- `Zero.forward`: multiply by zero at stride 1; otherwise stride-slice
`x[:, :, ::s, ::s]` (fixed offset 0) and multiply by zero. -/
def zeroApply (s : Nat) (x : Tensor) : Tensor :=
  if s = 1 then
    { x with val := fun n c i j => x.val n c i j * 0 }
  else
    { N := x.N, C := x.C
      H := (x.H + (s - 1)) / s
      W := (x.W + (s - 1)) / s
      val := fun n c i j => x.val n c (s * i) (s * j) * 0 }

/-- Mid-channel count `int(C_out * C_mid_mult)` of `SepConv.__init__`
(Python `int` truncation; the catalog multipliers are nonnegative, where
truncation coincides with the floor). -/
def cmidOf (Cout : Nat) (mult : ℚ) : Nat := (⌊(Cout : ℚ) * mult⌋).toNat

/-- `SepConv.forward`: ReLU; depthwise k×k convolution carrying the stride,
padding and dilation; pointwise convolution to the mid channels; batch norm;
ReLU; second depthwise k×k convolution with stride 1 and padding fixed at 1;
pointwise convolution to `C_out`; batch norm. -/
def sepConvApply (Cin Cout k stride padding dilation cmid : Nat) (θ : Par)
    (x : Tensor) : Tensor :=
  let h0 := reluT x
  let h1 := conv2dSq Cin Cin k stride padding dilation Cin (θ 0) h0
  let h2 := conv2dSq Cin cmid 1 1 0 1 1 (θ 1) h1
  let h3 := batchNormT (pScale θ 2) (pShift θ 2) h2
  let h4 := reluT h3
  let h5 := conv2dSq cmid cmid k 1 1 1 cmid (θ 3) h4
  let h6 := conv2dSq cmid Cout 1 1 0 1 1 (θ 4) h5
  batchNormT (pScale θ 5) (pShift θ 5) h6

/-- The intermediate tensor of `SepConv.forward` right after the first
pointwise convolution (the stage whose channel dimension realizes the mid
channel count). -/
def sepConvMid (Cin k stride padding dilation cmid : Nat) (θ : Par)
    (x : Tensor) : Tensor :=
  conv2dSq Cin cmid 1 1 0 1 1 (θ 1)
    (conv2dSq Cin Cin k stride padding dilation Cin (θ 0) (reluT x))

/-- `DilConv.forward` (legacy catalog): ReLU; depthwise dilated convolution;
pointwise convolution; batch norm. -/
def dilConvApply (Cin Cout k stride padding dilation : Nat) (θ : Par)
    (x : Tensor) : Tensor :=
  let h0 := reluT x
  let h1 := conv2dSq Cin Cin k stride padding dilation Cin (θ 0) h0
  let h2 := conv2dSq Cin Cout 1 1 0 1 1 (θ 1) h1
  batchNormT (pScale θ 2) (pShift θ 2) h2

/-- `ConvBNReLU.forward`. -/
def convBNReLUApply (Cin Cout k stride padding : Nat) (θ : Par)
    (x : Tensor) : Tensor :=
  reluT (batchNormT (pScale θ 1) (pShift θ 1)
    (conv2dSq Cin Cout k stride padding 1 1 (θ 0) x))

/-- `ReLUConvBN.forward`. -/
def reluConvBNApply (Cin Cout k stride padding : Nat) (θ : Par)
    (x : Tensor) : Tensor :=
  batchNormT (pScale θ 1) (pShift θ 1)
    (conv2dSq Cin Cout k stride padding 1 1 (θ 0) (reluT x))

/-- The `conv_7x1_1x7` sequential block: ReLU; 1×7 convolution with stride
(1, s) and padding (0, 3); 7×1 convolution with stride (s, 1) and padding
(3, 0); batch norm. -/
def conv7x1x7Apply (Cin Cout stride : Nat) (θ : Par) (x : Tensor) : Tensor :=
  let h0 := reluT x
  let h1 := conv2dRect Cin Cin 1 7 1 stride 0 3 1 1 1 (θ 0) h0
  let h2 := conv2dRect Cin Cout 7 1 stride 1 3 0 1 1 1 (θ 1) h1
  batchNormT (pScale θ 2) (pShift θ 2) h2

/-- `FactorizedReduce.forward`: ReLU; two parallel convolutions of
`C_out / 2` channels each — path A on the input, path B on the input padded
bottom-right then cropped `[1:, 1:]` (a one-pixel diagonal shift) —
concatenated along the channel axis and jointly batch-normalized. -/
def factorizedReduceApply (Cin Cout k s p : Nat) (θ : Par) (x : Tensor) :
    Tensor :=
  let xr := reluT x
  let y := crop11 (padBR xr)
  let a := conv2dSq Cin (Cout / 2) k s p 1 1 (θ 0) xr
  let b := conv2dSq Cin (Cout / 2) k s p 1 1 (θ 1) y
  batchNormT (pScale θ 2) (pShift θ 2) (catChannels a b)

/-- A constructed operation instance: one case per module class that the
catalogs instantiate, carrying exactly the configuration its `__init__`
stores. -/
inductive Op where
  | zero (stride : Nat)
  | identity
  | avgPool (stride : Nat)
  | maxPool (stride : Nat)
  | avgPoolProj (Cin Cout stride : Nat) (affine : Bool) (θ : Par)
  | maxPoolProj (Cin Cout stride : Nat) (affine : Bool) (θ : Par)
  | factorizedReduce (Cin Cout k stride padding : Nat) (affine : Bool) (θ : Par)
  | sepConv (Cin Cout k stride padding dilation cmid : Nat) (affine : Bool) (θ : Par)
  | dilConv (Cin Cout k stride padding dilation : Nat) (affine : Bool) (θ : Par)
  | conv7x1x7 (Cin Cout stride : Nat) (affine : Bool) (θ : Par)
  | convBNReLU (Cin Cout k stride padding : Nat) (affine : Bool) (θ : Par)
  | reluConvBN (Cin Cout k stride padding : Nat) (affine : Bool) (θ : Par)

/-- Forward pass of a constructed operation instance. -/
def applyOp : Op → Tensor → Tensor
  | .zero s, x => zeroApply s x
  | .identity, x => x
  | .avgPool s, x => avgPool3x3 s x
  | .maxPool s, x => maxPool3x3 s x
  | .avgPoolProj Cin Cout s _ θ, x =>
      batchNormT (pScale θ 1) (pShift θ 1)
        (conv2dSq Cin Cout 1 1 0 1 1 (θ 0) (avgPool3x3 s x))
  | .maxPoolProj Cin Cout s _ θ, x =>
      batchNormT (pScale θ 1) (pShift θ 1)
        (conv2dSq Cin Cout 1 1 0 1 1 (θ 0) (maxPool3x3 s x))
  | .factorizedReduce Cin Cout k s p _ θ, x => factorizedReduceApply Cin Cout k s p θ x
  | .sepConv Cin Cout k s p d cmid _ θ, x => sepConvApply Cin Cout k s p d cmid θ x
  | .dilConv Cin Cout k s p d _ θ, x => dilConvApply Cin Cout k s p d θ x
  | .conv7x1x7 Cin Cout s _ θ, x => conv7x1x7Apply Cin Cout s θ x
  | .convBNReLU Cin Cout k s p _ θ, x => convBNReLUApply Cin Cout k s p θ x
  | .reluConvBN Cin Cout k s p _ θ, x => reluConvBNApply Cin Cout k s p θ x

/-- `FactorizedReduce.__init__`: the construction asserts `C_out % 2 == 0`
and otherwise records the configuration. -/
def FactorizedReduce.init (Cin Cout k stride padding : Nat) (affine : Bool)
    (θ : Par) : Option Op :=
  if Cout % 2 = 0 then
    some (Op.factorizedReduce Cin Cout k stride padding affine θ)
  else none

/-- `SepConv.__init__`: the mid-channel count is the explicit `C_mid` when
given, otherwise `int(C_out * C_mid_mult)`. -/
def SepConv.init (Cin Cout k stride padding dilation : Nat) (affine : Bool)
    (mult : ℚ) (Cmid : Option Nat) (θ : Par) : Op :=
  Op.sepConv Cin Cout k stride padding dilation
    (match Cmid with
      | some m => m
      | none => cmidOf Cout mult)
    affine θ

/-- A catalog constructor: `(C_in, C_out, stride, affine)` together with the
parameter supply of the instantiated modules; `none` models a construction
failure (a raised assertion). -/
abbrev Ctor := Nat → Nat → Nat → Bool → Par → Option Op

/-- The primary catalog `OPS` of `cnn/operations.py`. -/
def OPS (key : String) : Option Ctor :=
  match key with
  | "none" => some fun _ _ stride _ _ => some (Op.zero stride)
  | "avg_pool_3x3" => some fun Cin Cout stride affine θ =>
      some (if Cin = Cout then Op.avgPool stride
            else Op.avgPoolProj Cin Cout stride affine θ)
  | "max_pool_3x3" => some fun Cin Cout stride affine θ =>
      some (if Cin = Cout then Op.maxPool stride
            else Op.maxPoolProj Cin Cout stride affine θ)
  | "skip_connect" => some fun Cin Cout stride affine θ =>
      if stride = 1 then some Op.identity
      else FactorizedReduce.init Cin Cout 1 stride 0 affine θ
  | "sep_conv_3x3" => some fun Cin Cout stride affine θ =>
      some (SepConv.init Cin Cout 3 stride 1 1 affine 1 none θ)
  | "sep_conv_5x5" => some fun Cin Cout stride affine θ =>
      some (SepConv.init Cin Cout 5 stride 2 1 affine 1 none θ)
  | "sep_conv_7x7" => some fun Cin Cout stride affine θ =>
      some (SepConv.init Cin Cout 7 stride 3 1 affine 1 none θ)
  | "dil_conv_3x3" => some fun Cin Cout stride affine θ =>
      some (SepConv.init Cin Cout 3 stride 2 2 affine 1 none θ)
  | "dil_conv_5x5" => some fun Cin Cout stride affine θ =>
      some (SepConv.init Cin Cout 5 stride 4 2 affine 1 none θ)
  | "conv_7x1_1x7" => some fun Cin Cout stride affine θ =>
      some (Op.conv7x1x7 Cin Cout stride affine θ)
  | "flood_conv_3x3" => some fun Cin Cout stride affine θ =>
      some (SepConv.init Cin Cout 3 stride 1 1 affine 4 none θ)
  | "dil_flood_conv_3x3" => some fun Cin Cout stride affine θ =>
      some (SepConv.init Cin Cout 3 stride 2 2 affine 4 none θ)
  | "choke_conv_3x3" => some fun Cin Cout stride affine θ =>
      some (SepConv.init Cin Cout 3 stride 1 1 affine 1 (some 32) θ)
  | "dil_choke_conv_3x3" => some fun Cin Cout stride affine θ =>
      some (SepConv.init Cin Cout 3 stride 2 2 affine 1 (some 32) θ)
  | _ => none

/-- The legacy catalog `DARTS_OPS` of `cnn/operations.py`: constructors take
`(C, C_out, stride, affine)` but use `C` for both input and output
channels, and `skip_connect` instantiates `FactorizedReduce(C, C,
affine=affine)` with all defaults (kernel 1, stride 2, padding 0). -/
def DARTS_OPS (key : String) : Option Ctor :=
  match key with
  | "none" => some fun _ _ stride _ _ => some (Op.zero stride)
  | "avg_pool_3x3" => some fun _ _ stride _ _ => some (Op.avgPool stride)
  | "max_pool_3x3" => some fun _ _ stride _ _ => some (Op.maxPool stride)
  | "skip_connect" => some fun C _ stride affine θ =>
      if stride = 1 then some Op.identity
      else FactorizedReduce.init C C 1 2 0 affine θ
  | "sep_conv_3x3" => some fun C _ stride affine θ =>
      some (SepConv.init C C 3 stride 1 1 affine 1 none θ)
  | "sep_conv_5x5" => some fun C _ stride affine θ =>
      some (SepConv.init C C 5 stride 2 1 affine 1 none θ)
  | "sep_conv_7x7" => some fun C _ stride affine θ =>
      some (SepConv.init C C 7 stride 3 1 affine 1 none θ)
  | "dil_conv_3x3" => some fun C _ stride affine θ =>
      some (Op.dilConv C C 3 stride 2 2 affine θ)
  | "dil_conv_5x5" => some fun C _ stride affine θ =>
      some (Op.dilConv C C 5 stride 4 2 affine θ)
  | "conv_7x1_1x7" => some fun C _ stride affine θ =>
      some (Op.conv7x1x7 C C stride affine θ)
  | "nor_conv_3x3" => some fun C _ stride affine θ =>
      some (Op.convBNReLU C C 3 stride 1 affine θ)
  | "nor_conv_5x5" => some fun C _ stride affine θ =>
      some (Op.convBNReLU C C 5 stride 2 affine θ)
  | "nor_conv_7x7" => some fun C _ stride affine θ =>
      some (Op.convBNReLU C C 7 stride 3 affine θ)
  | _ => none

/-- Look up a key in the primary catalog and invoke its constructor. -/
def opsConstruct (key : String) (Cin Cout stride : Nat) (affine : Bool)
    (θ : Par) : Option Op :=
  match OPS key with
  | none => none
  | some ctor => ctor Cin Cout stride affine θ

/-- Look up a key in the legacy catalog and invoke its constructor. -/
def dartsConstruct (key : String) (Cin Cout stride : Nat) (affine : Bool)
    (θ : Par) : Option Op :=
  match DARTS_OPS key with
  | none => none
  | some ctor => ctor Cin Cout stride affine θ

/-- The documented keys of the primary catalog, in source order. -/
def opsKeys : List String :=
  ["none", "avg_pool_3x3", "max_pool_3x3", "skip_connect",
   "sep_conv_3x3", "sep_conv_5x5", "sep_conv_7x7",
   "dil_conv_3x3", "dil_conv_5x5", "conv_7x1_1x7",
   "flood_conv_3x3", "dil_flood_conv_3x3",
   "choke_conv_3x3", "dil_choke_conv_3x3"]

/-- The documented keys of the legacy catalog, in source order. -/
def dartsKeys : List String :=
  ["none", "avg_pool_3x3", "max_pool_3x3", "skip_connect",
   "sep_conv_3x3", "sep_conv_5x5", "sep_conv_7x7",
   "dil_conv_3x3", "dil_conv_5x5", "conv_7x1_1x7",
   "nor_conv_3x3", "nor_conv_5x5", "nor_conv_7x7"]

/-- The output channel count actually realized by a primary-catalog
instance: `none` keeps the input channels, `skip_connect` at stride 1 is an
identity, every other key projects to the requested output channels. -/
def opsOutC (key : String) (Cin Cout stride : Nat) : Nat :=
  match key, stride with
  | "none", _ => Cin
  | "skip_connect", 1 => Cin
  | _, _ => Cout

/-- Extra spatial shrinkage of a primary-catalog instance beyond the
stride: the second depthwise stage of `SepConv` hard-codes padding 1, so
kernel-5 keys lose 2 pixels and the kernel-7 key loses 4 per spatial axis. -/
def spatialLoss (key : String) : Nat :=
  match key with
  | "sep_conv_5x5" => 2
  | "dil_conv_5x5" => 2
  | "sep_conv_7x7" => 4
  | _ => 0

/-- All-zero parameter supply, used to instantiate witnesses. -/
def par0 : Par := fun _ _ _ _ _ => 0

/-- A concrete nowhere-zero valuation, used to instantiate witnesses. -/
def vpos : Nat → Nat → Nat → Nat → ℚ := fun n c i j => (n : ℚ) + c + i + j + 1

/-- The concrete (2, 16, 32, 32) input tensor of the end-to-end scenario. -/
def x2x16 : Tensor := ⟨2, 16, 32, 32, vpos⟩



theorem cmidOf_one (Cout : Nat) : cmidOf Cout 1 = Cout := by
  unfold cmidOf
  rw [mul_one, Int.floor_natCast, Int.toNat_natCast]

theorem cmidOf_four (Cout : Nat) : cmidOf Cout 4 = 4 * Cout := by
  unfold cmidOf
  rw [show ((Cout : ℚ) * 4) = ((4 * Cout : Nat) : ℚ) by push_cast; ring]
  rw [Int.floor_natCast, Int.toNat_natCast]


/-- A concrete (1, 16, 12, 12) input tensor used by witnesses. -/
def x12 : Tensor := ⟨1, 16, 12, 12, vpos⟩

/-- Claim C9: applying an Identity instance returns a tensor deep-equal to
the input — `applyOp Op.identity` is the identity function on tensors. -/
theorem C9_identity_apply (x : Tensor) : applyOp Op.identity x = x := rfl

/-- Claim C3: `Zero` at stride 1 returns an all-zero tensor of the input's
shape; at stride 2 it returns an all-zero tensor whose spatial axes are
subsampled by exactly 2 via the fixed-offset stride slice starting at
index 0 (output position (i, j) reads input position (2 i, 2 j) before
zeroing), with shape (N, C, H/2, W/2) when H and W are divisible by 2. -/
theorem C3_zero_apply (x : Tensor) (hH : 2 ∣ x.H) (hW : 2 ∣ x.W) :
    ((applyOp (Op.zero 1) x).shape = (x.N, x.C, x.H, x.W) ∧
      ∀ n c i j, (applyOp (Op.zero 1) x).val n c i j = 0) ∧
    ((applyOp (Op.zero 2) x).shape = (x.N, x.C, x.H / 2, x.W / 2) ∧
      (∀ n c i j, (applyOp (Op.zero 2) x).val n c i j = 0) ∧
      ∀ n c i j, (applyOp (Op.zero 2) x).val n c i j =
        x.val n c (2 * i) (2 * j) * 0) := by
  obtain ⟨mh, hmh⟩ := hH
  obtain ⟨mw, hmw⟩ := hW
  refine ⟨⟨rfl, fun n c i j => mul_zero _⟩, ?_, fun n c i j => mul_zero _,
    fun n c i j => rfl⟩
  simp only [applyOp, zeroApply, Tensor.shape, if_neg (by omega : ¬(2 : Nat) = 1)]
  refine congrArg (fun p => (x.N, x.C, p)) ?_
  simp only [Prod.mk.injEq]
  exact ⟨by omega, by omega⟩

/-- Witness for C3 at the concrete (2, 16, 32, 32) tensor. -/
theorem C3_zero_apply_witness :
    2 ∣ x2x16.H ∧ 2 ∣ x2x16.W ∧
    (applyOp (Op.zero 2) x2x16).shape = (2, 16, 16, 16) :=
  ⟨by decide, by decide, (C3_zero_apply x2x16 (by decide) (by decide)).2.1⟩

/-- Claim C7 counterexample: constructing the 'none' operation with the
non-positive stride 0 succeeds in the primary catalog — no InvalidStride
failure happens at construction time. -/
theorem C7_counterexample :
    opsConstruct "none" 1 1 0 true par0 = some (Op.zero 0) ∧
    opsConstruct "none" 1 1 0 true par0 ≠ none :=
  ⟨rfl, by simp [opsConstruct, OPS]⟩

/-- Claim C7 amended: the catalogs perform no stride validation at
construction time: for every stride, including the non-positive stride 0,
the 'none' constructor of both catalogs succeeds and returns a Zero
instance storing the requested stride unchecked. -/
theorem C7_amended_no_stride_check (Cin Cout stride : Nat) (affine : Bool)
    (θ : Par) :
    opsConstruct "none" Cin Cout stride affine θ = some (Op.zero stride) ∧
    dartsConstruct "none" Cin Cout stride affine θ = some (Op.zero stride) :=
  ⟨rfl, rfl⟩

/-- Claim C8 counterexample: in the legacy catalog, 'skip_connect' with
stride 2 (≠ 1) and channel count 16 succeeds at construction, yielding a
FactorizedReduce instance instead of failing. -/
theorem C8_counterexample :
    dartsConstruct "skip_connect" 16 16 2 true par0 =
      some (Op.factorizedReduce 16 16 1 2 0 true par0) ∧
    dartsConstruct "skip_connect" 16 16 2 true par0 ≠ none :=
  ⟨rfl, by simp [dartsConstruct, DARTS_OPS, FactorizedReduce.init]⟩

/-- Claim C8 amended: the legacy catalog's 'skip_connect' does have a
stride-handling path for stride ≠ 1: it constructs FactorizedReduce(C, C)
with the default stride 2; construction fails only when C is odd (the
channel-evenness assertion), never because of the requested stride. -/
theorem C8_amended_legacy_skip (C Cout stride : Nat) (affine : Bool)
    (θ : Par) (hs : stride ≠ 1) :
    dartsConstruct "skip_connect" C Cout stride affine θ =
      if C % 2 = 0 then some (Op.factorizedReduce C C 1 2 0 affine θ)
      else none := by
  simp [dartsConstruct, DARTS_OPS, FactorizedReduce.init, hs]

/-- Witness for the amended C8: stride 2 with even channels constructs a
FactorizedReduce instance. -/
theorem C8_amended_legacy_skip_witness :
    (2 : Nat) ≠ 1 ∧
    dartsConstruct "skip_connect" 16 99 2 true par0 =
      if 16 % 2 = 0 then some (Op.factorizedReduce 16 16 1 2 0 true par0)
      else none :=
  ⟨by decide, C8_amended_legacy_skip 16 99 2 true par0 (by decide)⟩

/-- Claim C10: the legacy 'skip_connect' constructor invoked with any
stride ≠ 1 ignores the requested stride value: it constructs a
FactorizedReduce with its default stride 2 (its construction requires C to
be even), and the applied instance downsamples the spatial axes by exactly
2 — output spatial size H/2 and W/2 regardless of the requested stride. -/
theorem C10_legacy_skip_default_stride (C Cout stride : Nat) (affine : Bool)
    (θ : Par) (x : Tensor) (hs : stride ≠ 1) (hC : C % 2 = 0)
    (hH : 2 ∣ x.H) (hW : 2 ∣ x.W) (hH1 : 1 ≤ x.H) (hW1 : 1 ≤ x.W) :
    dartsConstruct "skip_connect" C Cout stride affine θ =
      some (Op.factorizedReduce C C 1 2 0 affine θ) ∧
    (applyOp (Op.factorizedReduce C C 1 2 0 affine θ) x).shape =
      (x.N, C, x.H / 2, x.W / 2) := by
  obtain ⟨mh, hmh⟩ := hH
  obtain ⟨mw, hmw⟩ := hW
  constructor
  · simp [dartsConstruct, DARTS_OPS, FactorizedReduce.init, hs, hC]
  · simp only [applyOp, factorizedReduceApply, batchNormT, catChannels,
      conv2dSq, conv2dRect, reluT, crop11, padBR, Tensor.shape, convOut]
    refine congrArg (fun p => (x.N, p)) ?_
    refine congrArg₂ (fun a p => (a, p)) (by omega) ?_
    simp only [Prod.mk.injEq]
    exact ⟨by omega, by omega⟩

/-- Witness for C10: requested stride 3 on a 12×12 input still halves the
spatial axes (6 = 12/2, not 4 = 12/3). -/
theorem C10_legacy_skip_default_stride_witness :
    ((3 : Nat) ≠ 1 ∧ (16 : Nat) % 2 = 0 ∧
      dartsConstruct "skip_connect" 16 16 3 true par0 =
        some (Op.factorizedReduce 16 16 1 2 0 true par0) ∧
      (applyOp (Op.factorizedReduce 16 16 1 2 0 true par0) x12).shape =
        (1, 16, 6, 6)) ∧
    (12 : Nat) / 3 ≠ 12 / 2 := by
  have h := C10_legacy_skip_default_stride 16 16 3 true par0 x12
    (by decide) (by decide) (by decide) (by decide) (by decide) (by decide)
  exact ⟨⟨by decide, by decide, h.1, h.2⟩, by decide⟩

/-- Claim C2: FactorizedReduce construction fails exactly when C_out is
odd; for even C_out ≥ 2 it succeeds, and the applied instance has exactly
C_out output channels, formed by concatenating two parallel convolution
paths of C_out/2 channels each along the channel axis (path B reading the
one-pixel-shifted input), jointly batch-normalized. -/
theorem C2_factorized_reduce (Cin Cout k s p : Nat) (affine : Bool)
    (θ : Par) (x : Tensor) :
    (FactorizedReduce.init Cin Cout k s p affine θ = none ↔ Cout % 2 = 1) ∧
    (Cout % 2 = 0 → 2 ≤ Cout →
      FactorizedReduce.init Cin Cout k s p affine θ =
        some (Op.factorizedReduce Cin Cout k s p affine θ) ∧
      (applyOp (Op.factorizedReduce Cin Cout k s p affine θ) x).C = Cout ∧
      Cout / 2 + Cout / 2 = Cout ∧
      applyOp (Op.factorizedReduce Cin Cout k s p affine θ) x =
        batchNormT (pScale θ 2) (pShift θ 2)
          (catChannels
            (conv2dSq Cin (Cout / 2) k s p 1 1 (θ 0) (reluT x))
            (conv2dSq Cin (Cout / 2) k s p 1 1 (θ 1)
              (crop11 (padBR (reluT x))))) ∧
      (conv2dSq Cin (Cout / 2) k s p 1 1 (θ 0) (reluT x)).C = Cout / 2 ∧
      (conv2dSq Cin (Cout / 2) k s p 1 1 (θ 1)
          (crop11 (padBR (reluT x)))).C = Cout / 2) := by
  constructor
  · by_cases h : Cout % 2 = 0
    · simp only [FactorizedReduce.init, if_pos h]
      exact ⟨fun hx => by simp at hx, fun hx => by omega⟩
    · simp only [FactorizedReduce.init, if_neg h]
      exact ⟨fun _ => by omega, fun _ => trivial⟩
  · intro he _
    refine ⟨by simp [FactorizedReduce.init, he], ?_, by omega, rfl, rfl, rfl⟩
    simp only [applyOp, factorizedReduceApply, batchNormT, catChannels,
      conv2dSq, conv2dRect]
    omega

/-- Witness for C2 at C_out = 32 on the (2, 16, 32, 32) tensor. -/
theorem C2_factorized_reduce_witness :
    (FactorizedReduce.init 16 32 1 2 0 true par0 = none ↔ 32 % 2 = 1) ∧
    (applyOp (Op.factorizedReduce 16 32 1 2 0 true par0) x2x16).C = 32 :=
  ⟨(C2_factorized_reduce 16 32 1 2 0 true par0 x2x16).1,
    ((C2_factorized_reduce 16 32 1 2 0 true par0 x2x16).2 (by decide)
      (by decide)).2.1⟩

/-- Claim C4: end-to-end on the (2, 16, 32, 32) input: 'sep_conv_3x3' with
C_in = 16, C_out = 32, stride 2 yields shape (2, 32, 16, 16);
'skip_connect' at stride 2 resolves to a FactorizedReduce instance yielding
(2, 32, 16, 16); and 'none' at stride 2 yields an all-zero tensor of shape
(2, 16, 16, 16), the channel count unchanged from the input. -/
theorem C4_end_to_end :
    (opsConstruct "sep_conv_3x3" 16 32 2 true par0 =
        some (Op.sepConv 16 32 3 2 1 1 32 true par0) ∧
      (applyOp (Op.sepConv 16 32 3 2 1 1 32 true par0) x2x16).shape =
        (2, 32, 16, 16)) ∧
    (opsConstruct "skip_connect" 16 32 2 true par0 =
        some (Op.factorizedReduce 16 32 1 2 0 true par0) ∧
      (applyOp (Op.factorizedReduce 16 32 1 2 0 true par0) x2x16).shape =
        (2, 32, 16, 16)) ∧
    (opsConstruct "none" 16 32 2 true par0 = some (Op.zero 2) ∧
      (applyOp (Op.zero 2) x2x16).shape = (2, 16, 16, 16) ∧
      ∀ n c i j, (applyOp (Op.zero 2) x2x16).val n c i j = 0) := by
  refine ⟨⟨by simp [opsConstruct, OPS, SepConv.init, cmidOf_one], rfl⟩,
    ⟨rfl, rfl⟩, rfl, rfl, fun n c i j => mul_zero _⟩

/-- Claim C6: looking up an operation key absent from the selected catalog
(primary OPS or legacy DARTS_OPS) fails, and looking up every documented
key of the primary catalog succeeds and returns a constructor. -/
theorem C6_registry_lookup :
    (∀ key, key ∉ opsKeys → OPS key = none) ∧
    (∀ key, key ∉ dartsKeys → DARTS_OPS key = none) ∧
    (∀ key, key ∈ opsKeys → ∃ ctor, OPS key = some ctor) := by
  refine ⟨?_, ?_, ?_⟩
  · intro key hk
    simp only [opsKeys, List.mem_cons, List.not_mem_nil, or_false, not_or] at hk
    unfold OPS
    split <;> simp_all
  · intro key hk
    simp only [dartsKeys, List.mem_cons, List.not_mem_nil, or_false, not_or] at hk
    unfold DARTS_OPS
    split <;> simp_all
  · intro key hk
    fin_cases hk <;> exact ⟨_, rfl⟩

/-- Witness for C6: an undocumented key fails in both catalogs and a
documented key of the primary catalog succeeds. -/
theorem C6_registry_lookup_witness :
    ("bottleneck_conv_9x9" ∉ opsKeys ∧ OPS "bottleneck_conv_9x9" = none) ∧
    ("bottleneck_conv_9x9" ∉ dartsKeys ∧
      DARTS_OPS "bottleneck_conv_9x9" = none) ∧
    ("sep_conv_3x3" ∈ opsKeys ∧ ∃ ctor, OPS "sep_conv_3x3" = some ctor) :=
  ⟨⟨by decide, C6_registry_lookup.1 "bottleneck_conv_9x9" (by decide)⟩,
    ⟨by decide, C6_registry_lookup.2.1 "bottleneck_conv_9x9" (by decide)⟩,
    by decide, C6_registry_lookup.2.2 "sep_conv_3x3" (by decide)⟩

/-- Claim C5: SepConv instances built through multiplier-based keys have
mid-channel count round(C_out × multiplier) (the flood keys use multiplier
4), and the choke keys have the fixed absolute mid-channel count 32; the
count is the channel dimension of the internal pointwise-convolution /
normalization stage of the constructed instance. -/
theorem C5_sepconv_mid_channels (Cin Cout stride : Nat) (affine : Bool)
    (θ : Par) (x : Tensor) :
    (opsConstruct "flood_conv_3x3" Cin Cout stride affine θ =
        some (Op.sepConv Cin Cout 3 stride 1 1 (cmidOf Cout 4) affine θ) ∧
      cmidOf Cout 4 = (round ((Cout : ℚ) * 4)).toNat ∧
      (sepConvMid Cin 3 stride 1 1 (cmidOf Cout 4) θ x).C = cmidOf Cout 4 ∧
      sepConvApply Cin Cout 3 stride 1 1 (cmidOf Cout 4) θ x =
        batchNormT (pScale θ 5) (pShift θ 5)
          (conv2dSq (cmidOf Cout 4) Cout 1 1 0 1 1 (θ 4)
            (conv2dSq (cmidOf Cout 4) (cmidOf Cout 4) 3 1 1 1 (cmidOf Cout 4)
              (θ 3)
              (reluT (batchNormT (pScale θ 2) (pShift θ 2)
                (sepConvMid Cin 3 stride 1 1 (cmidOf Cout 4) θ x)))))) ∧
    (opsConstruct "dil_flood_conv_3x3" Cin Cout stride affine θ =
        some (Op.sepConv Cin Cout 3 stride 2 2 (cmidOf Cout 4) affine θ)) ∧
    (opsConstruct "choke_conv_3x3" Cin Cout stride affine θ =
        some (Op.sepConv Cin Cout 3 stride 1 1 32 affine θ) ∧
      (sepConvMid Cin 3 stride 1 1 32 θ x).C = 32) ∧
    (opsConstruct "dil_choke_conv_3x3" Cin Cout stride affine θ =
        some (Op.sepConv Cin Cout 3 stride 2 2 32 affine θ)) := by
  refine ⟨⟨rfl, ?_, rfl, rfl⟩, rfl, ⟨rfl, rfl⟩, rfl⟩
  rw [cmidOf_four]
  rw [show ((Cout : ℚ) * 4) = ((4 * Cout : Nat) : ℚ) by push_cast; ring]
  rw [round_natCast, Int.toNat_natCast]

/-- Claim C1 counterexample: 'none' is a primary-catalog key whose instance
ignores C_out — constructed with C_in = 1, C_out = 2, stride 1 and applied
to a (1, 1, 2, 2) tensor it returns channel count 1, not the required
shape (N, C_out, H, W) = (1, 2, 2, 2). -/
theorem C1_counterexample :
    "none" ∈ opsKeys ∧
    opsConstruct "none" 1 2 1 true par0 = some (Op.zero 1) ∧
    (applyOp (Op.zero 1) (Tensor.mk 1 1 2 2 vpos)).shape ≠ (1, 2, 2, 2) :=
  ⟨by decide, rfl, by decide⟩

lemma shape_zero_one (x : Tensor) :
    (applyOp (Op.zero 1) x).shape = (x.N, x.C, x.H, x.W) := rfl

lemma shape_zero_two (x : Tensor) :
    (applyOp (Op.zero 2) x).shape = (x.N, x.C, (x.H + 1) / 2, (x.W + 1) / 2) := rfl

lemma shape_identity (x : Tensor) :
    (applyOp Op.identity x).shape = (x.N, x.C, x.H, x.W) := rfl

lemma shape_avgPool (s : Nat) (x : Tensor) :
    (applyOp (Op.avgPool s) x).shape =
      (x.N, x.C, convOut x.H 3 s 1 1, convOut x.W 3 s 1 1) := rfl

lemma shape_maxPool (s : Nat) (x : Tensor) :
    (applyOp (Op.maxPool s) x).shape =
      (x.N, x.C, convOut x.H 3 s 1 1, convOut x.W 3 s 1 1) := rfl

lemma shape_avgPoolProj (Cin Cout s : Nat) (affine : Bool) (θ : Par)
    (x : Tensor) :
    (applyOp (Op.avgPoolProj Cin Cout s affine θ) x).shape =
      (x.N, Cout, convOut (convOut x.H 3 s 1 1) 1 1 0 1,
        convOut (convOut x.W 3 s 1 1) 1 1 0 1) := rfl

lemma shape_maxPoolProj (Cin Cout s : Nat) (affine : Bool) (θ : Par)
    (x : Tensor) :
    (applyOp (Op.maxPoolProj Cin Cout s affine θ) x).shape =
      (x.N, Cout, convOut (convOut x.H 3 s 1 1) 1 1 0 1,
        convOut (convOut x.W 3 s 1 1) 1 1 0 1) := rfl

lemma shape_factorizedReduce (Cin Cout k s p : Nat) (affine : Bool) (θ : Par)
    (x : Tensor) :
    (applyOp (Op.factorizedReduce Cin Cout k s p affine θ) x).shape =
      (x.N, Cout / 2 + Cout / 2, convOut x.H k s p 1, convOut x.W k s p 1) := rfl

lemma shape_sepConv (Cin Cout k s p d cm : Nat) (affine : Bool) (θ : Par)
    (x : Tensor) :
    (applyOp (Op.sepConv Cin Cout k s p d cm affine θ) x).shape =
      (x.N, Cout,
        convOut (convOut (convOut (convOut x.H k s p d) 1 1 0 1) k 1 1 1) 1 1 0 1,
        convOut (convOut (convOut (convOut x.W k s p d) 1 1 0 1) k 1 1 1) 1 1 0 1) := rfl

lemma shape_conv7x1x7 (Cin Cout s : Nat) (affine : Bool) (θ : Par)
    (x : Tensor) :
    (applyOp (Op.conv7x1x7 Cin Cout s affine θ) x).shape =
      (x.N, Cout, convOut (convOut x.H 1 1 0 1) 7 s 3 1,
        convOut (convOut x.W 7 s 3 1) 1 1 0 1) := rfl

/-- Claim C1 amended: for every primary-catalog key and valid parameters
(stride ∈ {1, 2}, H and W divisible by the stride with H/stride and
W/stride at least 5), construction fails exactly for 'skip_connect' at
stride 2 with odd C_out, and every constructed instance applied to an
(N, C_in, H, W) tensor returns shape (N, opsOutC key C_in C_out stride,
H/stride − spatialLoss key, W/stride − spatialLoss key): the channel count
is C_in (not C_out) for 'none' and for 'skip_connect' at stride 1, and the
kernel-5 / kernel-7 separable keys lose 2 resp. 4 extra pixels per spatial
axis (hard-coded padding 1 in their second depthwise stage); all remaining
keys satisfy the original (N, C_out, H/stride, W/stride) contract. -/
theorem C1_amended_ops_shapes (key : String) (Cin Cout stride n H W : Nat)
    (affine : Bool) (θ : Par) (v : Nat → Nat → Nat → Nat → ℚ)
    (hkey : key ∈ opsKeys) (_hCin : 1 ≤ Cin) (hCout : 1 ≤ Cout)
    (hs : stride = 1 ∨ stride = 2) (hH : stride ∣ H) (hW : stride ∣ W)
    (hH5 : 5 ≤ H / stride) (hW5 : 5 ≤ W / stride) :
    (opsConstruct key Cin Cout stride affine θ = none ↔
      key = "skip_connect" ∧ stride = 2 ∧ Cout % 2 = 1) ∧
    ∀ op, opsConstruct key Cin Cout stride affine θ = some op →
      (applyOp op (Tensor.mk n Cin H W v)).shape =
        (n, opsOutC key Cin Cout stride,
          H / stride - spatialLoss key, W / stride - spatialLoss key) := by
  fin_cases hkey
  · -- none
    refine ⟨by simp [opsConstruct, OPS], ?_⟩
    intro op hop
    have hop2 : Op.zero stride = op := Option.some.inj hop
    subst hop2
    rw [show opsOutC "none" Cin Cout stride = Cin from rfl,
      show spatialLoss "none" = 0 from rfl]
    rcases hs with rfl | rfl <;>
      obtain ⟨mh, rfl⟩ := hH <;> obtain ⟨mw, rfl⟩ := hW
    · rw [shape_zero_one]
      (dsimp only; simp only [Prod.mk.injEq, true_and, and_true])
      omega
    · rw [shape_zero_two]
      (dsimp only; simp only [Prod.mk.injEq, true_and, and_true])
      omega
  · -- avg_pool_3x3
    refine ⟨by simp [opsConstruct, OPS], ?_⟩
    intro op hop
    have hop2 : (if Cin = Cout then Op.avgPool stride
        else Op.avgPoolProj Cin Cout stride affine θ) = op := Option.some.inj hop
    subst hop2
    rw [show opsOutC "avg_pool_3x3" Cin Cout stride = Cout from rfl,
      show spatialLoss "avg_pool_3x3" = 0 from rfl]
    by_cases hc : Cin = Cout
    · subst hc
      rw [if_pos rfl, shape_avgPool]
      rcases hs with rfl | rfl <;>
        obtain ⟨mh, rfl⟩ := hH <;> obtain ⟨mw, rfl⟩ := hW <;>
        (dsimp only; simp only [convOut, Prod.mk.injEq, true_and, and_true]) <;>
        omega
    · rw [if_neg hc, shape_avgPoolProj]
      rcases hs with rfl | rfl <;>
        obtain ⟨mh, rfl⟩ := hH <;> obtain ⟨mw, rfl⟩ := hW <;>
        (dsimp only; simp only [convOut, Prod.mk.injEq, true_and, and_true]) <;>
        omega
  · -- max_pool_3x3
    refine ⟨by simp [opsConstruct, OPS], ?_⟩
    intro op hop
    have hop2 : (if Cin = Cout then Op.maxPool stride
        else Op.maxPoolProj Cin Cout stride affine θ) = op := Option.some.inj hop
    subst hop2
    rw [show opsOutC "max_pool_3x3" Cin Cout stride = Cout from rfl,
      show spatialLoss "max_pool_3x3" = 0 from rfl]
    by_cases hc : Cin = Cout
    · subst hc
      rw [if_pos rfl, shape_maxPool]
      rcases hs with rfl | rfl <;>
        obtain ⟨mh, rfl⟩ := hH <;> obtain ⟨mw, rfl⟩ := hW <;>
        (dsimp only; simp only [convOut, Prod.mk.injEq, true_and, and_true]) <;>
        omega
    · rw [if_neg hc, shape_maxPoolProj]
      rcases hs with rfl | rfl <;>
        obtain ⟨mh, rfl⟩ := hH <;> obtain ⟨mw, rfl⟩ := hW <;>
        (dsimp only; simp only [convOut, Prod.mk.injEq, true_and, and_true]) <;>
        omega
  · -- skip_connect
    rcases hs with rfl | rfl
    · refine ⟨by simp [opsConstruct, OPS], ?_⟩
      intro op hop
      have hop2 : Op.identity = op := Option.some.inj hop
      subst hop2
      rw [shape_identity, show opsOutC "skip_connect" Cin Cout 1 = Cin from rfl,
        show spatialLoss "skip_connect" = 0 from rfl]
      obtain ⟨mh, rfl⟩ := hH
      obtain ⟨mw, rfl⟩ := hW
      (dsimp only; simp only [Prod.mk.injEq, true_and, and_true])
      omega
    · constructor
      · by_cases h2 : Cout % 2 = 0 <;>
          · simp [opsConstruct, OPS, FactorizedReduce.init, h2]
            all_goals omega
      · intro op hop
        rw [show opsConstruct "skip_connect" Cin Cout 2 affine θ =
            FactorizedReduce.init Cin Cout 1 2 0 affine θ from rfl] at hop
        by_cases h2 : Cout % 2 = 0
        · rw [FactorizedReduce.init, if_pos h2] at hop
          have hop2 : Op.factorizedReduce Cin Cout 1 2 0 affine θ = op :=
            Option.some.inj hop
          subst hop2
          rw [shape_factorizedReduce,
            show opsOutC "skip_connect" Cin Cout 2 = Cout from rfl,
            show spatialLoss "skip_connect" = 0 from rfl]
          obtain ⟨mh, rfl⟩ := hH
          obtain ⟨mw, rfl⟩ := hW
          (dsimp only; simp only [convOut, Prod.mk.injEq, true_and, and_true])
          omega
        · rw [FactorizedReduce.init, if_neg h2] at hop
          exact absurd hop (by simp)
  · -- sep_conv_3x3
    refine ⟨by simp [opsConstruct, OPS, SepConv.init], ?_⟩
    intro op hop
    have hop2 : Op.sepConv Cin Cout 3 stride 1 1 (cmidOf Cout 1) affine θ = op :=
      Option.some.inj hop
    subst hop2
    rw [shape_sepConv, show opsOutC "sep_conv_3x3" Cin Cout stride = Cout from rfl,
      show spatialLoss "sep_conv_3x3" = 0 from rfl]
    rcases hs with rfl | rfl <;>
      obtain ⟨mh, rfl⟩ := hH <;> obtain ⟨mw, rfl⟩ := hW <;>
      (dsimp only; simp only [convOut, Prod.mk.injEq, true_and, and_true]) <;>
      omega
  · -- sep_conv_5x5
    refine ⟨by simp [opsConstruct, OPS, SepConv.init], ?_⟩
    intro op hop
    have hop2 : Op.sepConv Cin Cout 5 stride 2 1 (cmidOf Cout 1) affine θ = op :=
      Option.some.inj hop
    subst hop2
    rw [shape_sepConv, show opsOutC "sep_conv_5x5" Cin Cout stride = Cout from rfl,
      show spatialLoss "sep_conv_5x5" = 2 from rfl]
    rcases hs with rfl | rfl <;>
      obtain ⟨mh, rfl⟩ := hH <;> obtain ⟨mw, rfl⟩ := hW <;>
      (dsimp only; simp only [convOut, Prod.mk.injEq, true_and, and_true]) <;>
      omega
  · -- sep_conv_7x7
    refine ⟨by simp [opsConstruct, OPS, SepConv.init], ?_⟩
    intro op hop
    have hop2 : Op.sepConv Cin Cout 7 stride 3 1 (cmidOf Cout 1) affine θ = op :=
      Option.some.inj hop
    subst hop2
    rw [shape_sepConv, show opsOutC "sep_conv_7x7" Cin Cout stride = Cout from rfl,
      show spatialLoss "sep_conv_7x7" = 4 from rfl]
    rcases hs with rfl | rfl <;>
      obtain ⟨mh, rfl⟩ := hH <;> obtain ⟨mw, rfl⟩ := hW <;>
      (dsimp only; simp only [convOut, Prod.mk.injEq, true_and, and_true]) <;>
      omega
  · -- dil_conv_3x3
    refine ⟨by simp [opsConstruct, OPS, SepConv.init], ?_⟩
    intro op hop
    have hop2 : Op.sepConv Cin Cout 3 stride 2 2 (cmidOf Cout 1) affine θ = op :=
      Option.some.inj hop
    subst hop2
    rw [shape_sepConv, show opsOutC "dil_conv_3x3" Cin Cout stride = Cout from rfl,
      show spatialLoss "dil_conv_3x3" = 0 from rfl]
    rcases hs with rfl | rfl <;>
      obtain ⟨mh, rfl⟩ := hH <;> obtain ⟨mw, rfl⟩ := hW <;>
      (dsimp only; simp only [convOut, Prod.mk.injEq, true_and, and_true]) <;>
      omega
  · -- dil_conv_5x5
    refine ⟨by simp [opsConstruct, OPS, SepConv.init], ?_⟩
    intro op hop
    have hop2 : Op.sepConv Cin Cout 5 stride 4 2 (cmidOf Cout 1) affine θ = op :=
      Option.some.inj hop
    subst hop2
    rw [shape_sepConv, show opsOutC "dil_conv_5x5" Cin Cout stride = Cout from rfl,
      show spatialLoss "dil_conv_5x5" = 2 from rfl]
    rcases hs with rfl | rfl <;>
      obtain ⟨mh, rfl⟩ := hH <;> obtain ⟨mw, rfl⟩ := hW <;>
      (dsimp only; simp only [convOut, Prod.mk.injEq, true_and, and_true]) <;>
      omega
  · -- conv_7x1_1x7
    refine ⟨by simp [opsConstruct, OPS], ?_⟩
    intro op hop
    have hop2 : Op.conv7x1x7 Cin Cout stride affine θ = op := Option.some.inj hop
    subst hop2
    rw [shape_conv7x1x7, show opsOutC "conv_7x1_1x7" Cin Cout stride = Cout from rfl,
      show spatialLoss "conv_7x1_1x7" = 0 from rfl]
    rcases hs with rfl | rfl <;>
      obtain ⟨mh, rfl⟩ := hH <;> obtain ⟨mw, rfl⟩ := hW <;>
      (dsimp only; simp only [convOut, Prod.mk.injEq, true_and, and_true]) <;>
      omega
  · -- flood_conv_3x3
    refine ⟨by simp [opsConstruct, OPS, SepConv.init], ?_⟩
    intro op hop
    have hop2 : Op.sepConv Cin Cout 3 stride 1 1 (cmidOf Cout 4) affine θ = op :=
      Option.some.inj hop
    subst hop2
    rw [shape_sepConv, show opsOutC "flood_conv_3x3" Cin Cout stride = Cout from rfl,
      show spatialLoss "flood_conv_3x3" = 0 from rfl]
    rcases hs with rfl | rfl <;>
      obtain ⟨mh, rfl⟩ := hH <;> obtain ⟨mw, rfl⟩ := hW <;>
      (dsimp only; simp only [convOut, Prod.mk.injEq, true_and, and_true]) <;>
      omega
  · -- dil_flood_conv_3x3
    refine ⟨by simp [opsConstruct, OPS, SepConv.init], ?_⟩
    intro op hop
    have hop2 : Op.sepConv Cin Cout 3 stride 2 2 (cmidOf Cout 4) affine θ = op :=
      Option.some.inj hop
    subst hop2
    rw [shape_sepConv, show opsOutC "dil_flood_conv_3x3" Cin Cout stride = Cout from rfl,
      show spatialLoss "dil_flood_conv_3x3" = 0 from rfl]
    rcases hs with rfl | rfl <;>
      obtain ⟨mh, rfl⟩ := hH <;> obtain ⟨mw, rfl⟩ := hW <;>
      (dsimp only; simp only [convOut, Prod.mk.injEq, true_and, and_true]) <;>
      omega
  · -- choke_conv_3x3
    refine ⟨by simp [opsConstruct, OPS, SepConv.init], ?_⟩
    intro op hop
    have hop2 : Op.sepConv Cin Cout 3 stride 1 1 32 affine θ = op :=
      Option.some.inj hop
    subst hop2
    rw [shape_sepConv, show opsOutC "choke_conv_3x3" Cin Cout stride = Cout from rfl,
      show spatialLoss "choke_conv_3x3" = 0 from rfl]
    rcases hs with rfl | rfl <;>
      obtain ⟨mh, rfl⟩ := hH <;> obtain ⟨mw, rfl⟩ := hW <;>
      (dsimp only; simp only [convOut, Prod.mk.injEq, true_and, and_true]) <;>
      omega
  · -- dil_choke_conv_3x3
    refine ⟨by simp [opsConstruct, OPS, SepConv.init], ?_⟩
    intro op hop
    have hop2 : Op.sepConv Cin Cout 3 stride 2 2 32 affine θ = op :=
      Option.some.inj hop
    subst hop2
    rw [shape_sepConv, show opsOutC "dil_choke_conv_3x3" Cin Cout stride = Cout from rfl,
      show spatialLoss "dil_choke_conv_3x3" = 0 from rfl]
    rcases hs with rfl | rfl <;>
      obtain ⟨mh, rfl⟩ := hH <;> obtain ⟨mw, rfl⟩ := hW <;>
      (dsimp only; simp only [convOut, Prod.mk.injEq, true_and, and_true]) <;>
      omega

/-- Witness for the amended C1: 'sep_conv_3x3' with C_in = 16, C_out = 32,
stride 2 on a (2, 16, 32, 32) input yields shape (2, 32, 16, 16). -/
theorem C1_amended_ops_shapes_witness :
    ((2 : Nat) = 1 ∨ (2 : Nat) = 2) ∧ (2 : Nat) ∣ 32 ∧ 5 ≤ 32 / 2 ∧
    (applyOp (Op.sepConv 16 32 3 2 1 1 32 true par0)
        (Tensor.mk 2 16 32 32 vpos)).shape = (2, 32, 16, 16) :=
  ⟨by decide, by decide, by decide,
    (C1_amended_ops_shapes "sep_conv_3x3" 16 32 2 2 32 32 true par0 vpos
        (by decide) (by decide) (by decide) (by decide) (by decide)
        (by decide) (by decide) (by decide)).2
      (Op.sepConv 16 32 3 2 1 1 32 true par0)
      (by simp [opsConstruct, OPS, SepConv.init, cmidOf_one])⟩


end SharpDarts
